import Mathlib

/-!
Verification of the intent-classification and action-dispatch engine of the
document-intelligence agent (`agent_intelligence.py`, `crewai_agent_system.py`).

The Python code is shallowly embedded: the keyword classifier
`_fallback_intent_analysis` becomes a pure Lean function over strings, the
action dispatcher `execute_action` and the handlers become functions
parameterised by an `Env` record holding the two external effects (the
Bedrock model call, which in Python may raise, modelled as
`String → Except String String`; and JSON parsing of the entity response,
modelled as `String → Option ParsedEntities`).  Python substring tests
(`kw in query_lower`) become decidable list-infix tests on the character
lists of the strings.
-/

namespace AgentIntelligence

/-- Lower-casing of a query, as performed by `user_query.lower()` in
`_fallback_intent_analysis`.  (The queries in this repository are ASCII; we
use `Char.toLower` character-wise.) -/
def lowerStr (s : String) : String :=
  String.mk (s.toList.map Char.toLower)

/-- Embedding of the Python substring test `needle in hay` as
`strContains hay needle`. -/
def strContains (hay needle : String) : Bool :=
  decide (needle.toList <:+: hay.toList)

/-- Embedding of `any(word in ql for word in kws)` as `anyKw ql kws`. -/
def anyKw (ql : String) (kws : List String) : Bool :=
  kws.any (fun kw => strContains ql kw)

/-- The parameter dictionaries produced by the classifier and consumed by the
handlers.  The Python code uses plain dicts; only these shapes ever occur. -/
inductive Params where
  | empty
  | question (q : String)
  | entityTypes (ts : List String)
  | targetLanguage (lang : String)
  | searchTerms (ts : List String)
  | suggestions (s : List String)
deriving DecidableEq

/-- The output dict of the classifier: `action`, `confidence`, `reasoning`,
`parameters`, `requires_multiple_docs`. -/
structure Intent where
  action : String
  confidence : ℚ
  reasoning : String
  parameters : Params
  requires_multiple_docs : Bool
deriving DecidableEq

/-! Keyword lists, verbatim from `_fallback_intent_analysis`.  The first
fourteen belong to the first (richer) `if/elif` cascade, the `…2` lists to
the duplicate older cascade that follows the generic-interrogative rule. -/

def conclusionKws : List String :=
  ["conclusion", "conclude", "concluding", "final", "ending", "summary of findings"]

def authorKws : List String :=
  ["author", "writer", "who wrote", "who is the author", "who created", "who is author"]

def findingsKws : List String :=
  ["finding", "findings", "main finding", "key finding", "result"]

def peopleKws : List String :=
  ["person", "people", "personnel", "individuals", "names"]

def orgKws : List String :=
  ["organization", "company", "institution", "university", "college", "school"]

def actionItemKws : List String :=
  ["action item", "task", "todo", "deadline", "responsibility", "recommendation", "suggestion"]

def translateKws : List String :=
  ["translate", "spanish", "french", "german", "chinese", "japanese", "language"]

def classifyKws : List String :=
  ["classify", "type", "category", "what kind", "document type"]

def insightKws : List String :=
  ["insight", "pattern", "trend", "discovery"]

def sentimentKws : List String :=
  ["sentiment", "tone", "emotion", "mood", "attitude", "feeling"]

def compareKws : List String :=
  ["compare", "difference", "similar", "versus", "vs", "against"]

def summarizeKws : List String :=
  ["summarize", "summary", "summarize", "overview", "brief"]

def questionKws : List String :=
  ["what", "how", "why", "when", "where", "which", "question"]

def actionItemKws2 : List String :=
  ["action item", "task", "todo", "deadline", "responsibility"]

def whoKws2 : List String :=
  ["who", "person", "people", "organization", "company"]

def translateKws2 : List String :=
  ["translate", "spanish", "french", "german", "chinese", "japanese"]

def classifyKws2 : List String :=
  ["classify", "type", "category", "what kind"]

def insightKws2 : List String :=
  ["insight", "pattern", "trend", "key finding"]

def sentimentKws2 : List String :=
  ["sentiment", "tone", "emotion", "mood"]

def compareKws2 : List String :=
  ["compare", "difference", "similar", "versus"]

def summarizeKws2 : List String :=
  ["summarize", "summary", "summarize"]

/-- Target-language resolution inside the translate rules: Spanish unless a
more specific language-name substring is found (french before german before
chinese before japanese). -/
def resolveTargetLang (ql : String) : String :=
  if strContains ql "french" then "French"
  else if strContains ql "german" then "German"
  else if strContains ql "chinese" then "Chinese"
  else if strContains ql "japanese" then "Japanese"
  else "Spanish"

/-- The fixed suggestion list of the no-match branch. -/
def clarificationSuggestions : List String :=
  ["What is this document about?",
   "Who is the author?",
   "What is the conclusion?",
   "Who are the key people mentioned?",
   "What organizations are mentioned?",
   "What are the main findings?",
   "Extract action items",
   "Summarize this document",
   "Classify document type",
   "Analyze sentiment"]

/-! The intent records produced by the rules.  Naming them keeps proof terms
small; each is verbatim the dict returned by the corresponding branch, with
the confidence as a parameter where the first and the duplicate cascade
return the same dict up to confidence. -/

def conclusionIntent : Intent :=
  { action := "answer_question", confidence := 0.9,
    reasoning := "User asking about the conclusion of the document",
    parameters := Params.question "What is the conclusion of this document?",
    requires_multiple_docs := false }

def authorIntent : Intent :=
  { action := "answer_question", confidence := 0.9,
    reasoning := "User asking about the author of the document",
    parameters := Params.question "Who is the author of this document?",
    requires_multiple_docs := false }

def findingsIntent (q : String) : Intent :=
  { action := "answer_question", confidence := 0.8,
    reasoning := "User asking about specific findings in the document",
    parameters := Params.question q,
    requires_multiple_docs := false }

def peopleEntitiesIntent : Intent :=
  { action := "extract_entities", confidence := 0.8,
    reasoning := "User asking about people or individuals mentioned",
    parameters := Params.entityTypes ["PERSON", "ORGANIZATION"],
    requires_multiple_docs := false }

def orgEntitiesIntent : Intent :=
  { action := "extract_entities", confidence := 0.8,
    reasoning := "User asking about organizations or institutions",
    parameters := Params.entityTypes ["ORGANIZATION"],
    requires_multiple_docs := false }

def actionItemsIntent (c : ℚ) : Intent :=
  { action := "extract_action_items", confidence := c,
    reasoning := "User wants action items and tasks",
    parameters := Params.empty,
    requires_multiple_docs := false }

def translateIntent (c : ℚ) (ql : String) : Intent :=
  { action := "translate", confidence := c,
    reasoning := "User requested translation to " ++ resolveTargetLang ql,
    parameters := Params.targetLanguage (resolveTargetLang ql),
    requires_multiple_docs := false }

def classifyIntent (c : ℚ) : Intent :=
  { action := "classify", confidence := c,
    reasoning := "User wants to classify the document type",
    parameters := Params.empty,
    requires_multiple_docs := false }

def insightsIntent (c : ℚ) : Intent :=
  { action := "extract_insights", confidence := c,
    reasoning := "User wants key insights and patterns",
    parameters := Params.empty,
    requires_multiple_docs := false }

def sentimentIntent (c : ℚ) : Intent :=
  { action := "analyze_sentiment", confidence := c,
    reasoning := "User wants sentiment analysis",
    parameters := Params.empty,
    requires_multiple_docs := false }

def compareIntent : Intent :=
  { action := "compare_documents", confidence := 0.7,
    reasoning := "User wants to compare documents",
    parameters := Params.empty,
    requires_multiple_docs := true }

def summarizeIntent : Intent :=
  { action := "summarize", confidence := 0.8,
    reasoning := "User requested summarization",
    parameters := Params.empty,
    requires_multiple_docs := false }

def questionIntent (q : String) : Intent :=
  { action := "answer_question", confidence := 0.7,
    reasoning := "User asking a general question about the document",
    parameters := Params.question q,
    requires_multiple_docs := false }

def whoEntitiesIntent : Intent :=
  { action := "extract_entities", confidence := 0.7,
    reasoning := "User asking about people or organizations",
    parameters := Params.entityTypes ["PERSON", "ORGANIZATION"],
    requires_multiple_docs := false }

def clarificationIntent : Intent :=
  { action := "ask_clarification", confidence := 0.3,
    reasoning := "User query unclear - need clarification on what they want",
    parameters := Params.suggestions clarificationSuggestions,
    requires_multiple_docs := false }

/-- Body of `_fallback_intent_analysis` after `query_lower = user_query.lower()`:
`ql` is the lowercased query, `q` the original query (which the findings rule
and the generic-question rule embed verbatim as the `question` parameter). -/
def fallbackCore (ql q : String) : Intent :=
  if anyKw ql conclusionKws then conclusionIntent
  else if anyKw ql authorKws then authorIntent
  else if anyKw ql findingsKws then findingsIntent q
  else if anyKw ql peopleKws && !strContains ql "author" then peopleEntitiesIntent
  else if strContains ql "who" && !strContains ql "author" then peopleEntitiesIntent
  else if anyKw ql orgKws then orgEntitiesIntent
  else if anyKw ql actionItemKws then actionItemsIntent 0.8
  else if anyKw ql translateKws then translateIntent 0.9 ql
  else if anyKw ql classifyKws then classifyIntent 0.8
  else if anyKw ql insightKws then insightsIntent 0.8
  else if anyKw ql sentimentKws then sentimentIntent 0.8
  else if anyKw ql compareKws then compareIntent
  else if anyKw ql summarizeKws then summarizeIntent
  else if anyKw ql questionKws then questionIntent q
  else if anyKw ql actionItemKws2 then actionItemsIntent 0.7
  else if anyKw ql whoKws2 then whoEntitiesIntent
  else if anyKw ql translateKws2 then translateIntent 0.8 ql
  else if anyKw ql classifyKws2 then classifyIntent 0.7
  else if anyKw ql insightKws2 then insightsIntent 0.7
  else if anyKw ql sentimentKws2 then sentimentIntent 0.7
  else if anyKw ql compareKws2 then compareIntent
  else if anyKw ql summarizeKws2 then summarizeIntent
  else clarificationIntent

/-- Embedding of `_fallback_intent_analysis(user_query)`: lowercase, then run the rule
cascade.  `analyze_user_intent` delegates to this unconditionally. -/
def fallback_intent_analysis (user_query : String) : Intent :=
  fallbackCore (lowerStr user_query) user_query

/-- Variant of `fallbackCore` with the duplicate older `elif` cascade (the branches after
the generic-interrogative rule) deleted: the first fourteen rules, then the
clarification fallback. -/
def fallbackTrimmedCore (ql q : String) : Intent :=
  if anyKw ql conclusionKws then conclusionIntent
  else if anyKw ql authorKws then authorIntent
  else if anyKw ql findingsKws then findingsIntent q
  else if anyKw ql peopleKws && !strContains ql "author" then peopleEntitiesIntent
  else if strContains ql "who" && !strContains ql "author" then peopleEntitiesIntent
  else if anyKw ql orgKws then orgEntitiesIntent
  else if anyKw ql actionItemKws then actionItemsIntent 0.8
  else if anyKw ql translateKws then translateIntent 0.9 ql
  else if anyKw ql classifyKws then classifyIntent 0.8
  else if anyKw ql insightKws then insightsIntent 0.8
  else if anyKw ql sentimentKws then sentimentIntent 0.8
  else if anyKw ql compareKws then compareIntent
  else if anyKw ql summarizeKws then summarizeIntent
  else if anyKw ql questionKws then questionIntent q
  else clarificationIntent

/-- The classifier with the duplicate older cascade deleted. -/
def fallback_intent_trimmed (user_query : String) : Intent :=
  fallbackTrimmedCore (lowerStr user_query) user_query

/-- The components of an `Intent` that are independent of the verbatim query:
everything except `parameters` (the findings and generic-question rules copy
the original, non-lowercased query into `parameters["question"]`). -/
def intentShape (i : Intent) : String × ℚ × String × Bool :=
  (i.action, i.confidence, i.reasoning, i.requires_multiple_docs)

/-! ## Action handlers and dispatcher -/

/-- Truncation `content[:n]` used by every prompt builder. -/
def takeStr (s : String) (n : Nat) : String :=
  String.mk (s.toList.take n)

/-- The structured entity data the entity-extraction handler asks the model
for: lists keyed by `people`, `organizations`, `dates`, `locations`. -/
structure ParsedEntities where
  people : List String
  organizations : List String
  dates : List String
  locations : List String
deriving DecidableEq

/-- The `entities` field of an entity-extraction result: either the parsed
structured data, or the fallback dict
`\x7b"raw_response": response, "error": "JSON parsing failed"\x7d`. -/
inductive Entities where
  | parsed (e : ParsedEntities)
  | fallback (raw_response : String) (err : String)
deriving DecidableEq

/-- External effects of the dispatcher.  `bedrock` models
`bedrock_client.invoke_model` plus response-body extraction: `Except.error e`
is the Python call raising an exception with text `e`, `Except.ok text` is a
well-formed model response.  `parseEntitiesJson` models `json.loads` on the
entity-extraction response: `none` is a `JSONDecodeError`. -/
structure Env where
  bedrock : String → Except String String
  parseEntitiesJson : String → Option ParsedEntities

/-- Embedding of `_call_bedrock`: its internal `try/except` catches every exception of the
model invocation and turns it into the *returned string*
`"Error calling Bedrock: <e>"` — it never lets the exception propagate to the
handler or the dispatcher. -/
def call_bedrock (env : Env) (prompt : String) : String :=
  match env.bedrock prompt with
  | Except.ok text => text
  | Except.error e => "Error calling Bedrock: " ++ e

/-! Prompt builders.  The literal instruction wording is a configuration
detail (every claim quantifies over all oracle responses), so each builder
keeps only the structure that matters: which parameters are embedded and the
truncation bound applied to the document content. -/

def summarizePrompt (content : String) : String :=
  "Create a comprehensive summary of the following document. " ++ takeStr content 8000

def entitiesPrompt (entity_types : List String) (content : String) : String :=
  "Extract the following types of entities from the document: "
    ++ String.intercalate ", " entity_types ++ " " ++ takeStr content 6000

def answerPrompt (question content : String) : String :=
  "Answer the following question about the document: " ++ question ++ " "
    ++ takeStr content 8000

def comparePrompt (content : String) : String :=
  "Analyze this document and provide insights for comparison. " ++ takeStr content 6000

def translatePrompt (target_language content : String) : String :=
  "Translate the following document to " ++ target_language ++ ". "
    ++ takeStr content 6000

def classifyPrompt (content : String) : String :=
  "Classify this document into one of the categories. " ++ takeStr content 4000

def insightsPrompt (content : String) : String :=
  "Extract key insights from this document: " ++ takeStr content 8000

def findPrompt (search_terms : List String) (content : String) : String :=
  "Find information related to these terms in the document: "
    ++ String.intercalate ", " search_terms ++ " " ++ takeStr content 8000

def sentimentPrompt (content : String) : String :=
  "Analyze the sentiment and tone of this document: " ++ takeStr content 6000

def actionItemsPrompt (content : String) : String :=
  "Extract action items, tasks, deadlines, and responsibilities from this document: "
    ++ takeStr content 8000

/-- Result dicts of the handlers: one success shape per action (carrying
exactly the fields that handler emits) plus the error shape
`\x7b"error": msg\x7d` produced by `execute_action` itself. -/
inductive ActionResult where
  | err (msg : String)
  | summarizeRes (result : String) (content_length summary_length : Nat)
  | entitiesRes (entities : Entities) (entity_types : List String)
  | answerRes (question answer : String)
  | compareRes (analysis note : String)
  | translateRes (target_language translation : String) (original_length : Nat)
  | classifyRes (classification : String)
  | insightsRes (insights : String)
  | findRes (search_terms : List String) (results : String)
  | sentimentRes (sentiment_analysis : String)
  | actionItemsRes (action_items : String)
  | clarificationRes (message : String) (suggestions : List String)
deriving DecidableEq

/-- Is a result the error shape `\x7b"error": msg\x7d`? -/
def ActionResult.isErr : ActionResult → Bool
  | ActionResult.err _ => true
  | _ => false

/-- Embedding of `_summarize_document`. -/
def summarize_document (env : Env) (content : String) : ActionResult :=
  let response := call_bedrock env (summarizePrompt content)
  ActionResult.summarizeRes response content.length response.length

/-- Embedding of `parameters.get("entity_types", ["PERSON", "ORGANIZATION", "DATE", "LOCATION"])`. -/
def getEntityTypes (p : Params) : List String :=
  match p with
  | Params.entityTypes ts => ts
  | _ => ["PERSON", "ORGANIZATION", "DATE", "LOCATION"]

/-- Embedding of `_extract_entities`: asks the model for structured entities, parses the
response; on parse failure the `entities` field becomes the fallback dict and
the action still succeeds. -/
def extract_entities (env : Env) (content : String) (parameters : Params) : ActionResult :=
  let entity_types := getEntityTypes parameters
  let response := call_bedrock env (entitiesPrompt entity_types content)
  let entities :=
    match env.parseEntitiesJson response with
    | some e => Entities.parsed e
    | none => Entities.fallback response "JSON parsing failed"
  ActionResult.entitiesRes entities entity_types

/-- Embedding of `parameters.get("question", "What is this document about?")`. -/
def getQuestion (p : Params) : String :=
  match p with
  | Params.question q => q
  | _ => "What is this document about?"

/-- Embedding of `_answer_question`. -/
def answer_question (env : Env) (content : String) (parameters : Params) : ActionResult :=
  let question := getQuestion parameters
  let response := call_bedrock env (answerPrompt question content)
  ActionResult.answerRes question response

/-- Embedding of `_compare_documents` (single-document analysis plus a fixed note). -/
def compare_documents (env : Env) (content : String) (_parameters : Params) : ActionResult :=
  let response := call_bedrock env (comparePrompt content)
  ActionResult.compareRes response
    "Multiple document comparison requires additional documents"

/-- Embedding of `parameters.get("target_language", "Spanish")`. -/
def getTargetLanguage (p : Params) : String :=
  match p with
  | Params.targetLanguage lang => lang
  | _ => "Spanish"

/-- Embedding of `_translate_document`. -/
def translate_document (env : Env) (content : String) (parameters : Params) : ActionResult :=
  let target_language := getTargetLanguage parameters
  let response := call_bedrock env (translatePrompt target_language content)
  ActionResult.translateRes target_language response content.length

/-- Embedding of `_classify_document`. -/
def classify_document (env : Env) (content : String) : ActionResult :=
  ActionResult.classifyRes (call_bedrock env (classifyPrompt content))

/-- Embedding of `_extract_insights`. -/
def extract_insights (env : Env) (content : String) : ActionResult :=
  ActionResult.insightsRes (call_bedrock env (insightsPrompt content))

/-- Embedding of `parameters.get("search_terms", ["key", "important", "main"])`. -/
def getSearchTerms (p : Params) : List String :=
  match p with
  | Params.searchTerms ts => ts
  | _ => ["key", "important", "main"]

/-- Embedding of `_find_information`. -/
def find_information (env : Env) (content : String) (parameters : Params) : ActionResult :=
  let search_terms := getSearchTerms parameters
  ActionResult.findRes search_terms (call_bedrock env (findPrompt search_terms content))

/-- Embedding of `_analyze_sentiment`. -/
def analyze_sentiment (env : Env) (content : String) : ActionResult :=
  ActionResult.sentimentRes (call_bedrock env (sentimentPrompt content))

/-- Embedding of `_extract_action_items`. -/
def extract_action_items (env : Env) (content : String) : ActionResult :=
  ActionResult.actionItemsRes (call_bedrock env (actionItemsPrompt content))

/-- Embedding of `parameters.get("suggestions", [])`. -/
def getSuggestions (p : Params) : List String :=
  match p with
  | Params.suggestions s => s
  | _ => []

/-- The message built by `_ask_clarification`: fixed header, the numbered
suggestion lines, fixed footer. -/
def clarificationMessage (suggestions : List String) : String :=
  "\nI\x27m not sure what you\x27d like me to do with this document. Here are some common questions you can ask:\n\n"
    ++ String.join ((List.enumFrom 1 suggestions).map
        (fun p => toString p.1 ++ ". " ++ p.2 ++ "\n"))
    ++ "\nYou can also ask me to:\n- Translate the document to another language\n- Extract specific information\n- Compare with other documents\n- Find patterns or insights\n\nJust tell me what you\x27re looking for, and I\x27ll help you find it!\n"

/-- Embedding of `_ask_clarification` — the only handler that performs no model call. -/
def ask_clarification (parameters : Params) : ActionResult :=
  let suggestions := getSuggestions parameters
  ActionResult.clarificationRes (clarificationMessage suggestions) suggestions

/-- The actions `execute_action` has a handler branch for. -/
def knownActions : List String :=
  ["summarize", "extract_entities", "answer_question", "compare_documents",
   "translate", "classify", "extract_insights", "find_information",
   "analyze_sentiment", "extract_action_items", "ask_clarification"]

/-- Embedding of `execute_action`: routes the action string to its handler; an unmatched
action yields `\x7b"error": "Unknown action: <action>"\x7d`.  The surrounding
Python `try/except` (which would yield
`\x7b"error": "Error executing action <action>: ..."\x7d`) is unreachable in
this embedding because every handler is total — in particular
`_call_bedrock` absorbs every model-invocation exception internally. -/
def execute_action (env : Env) (action : String) (document_content : String)
    (parameters : Params) : ActionResult :=
  if action = "summarize" then summarize_document env document_content
  else if action = "extract_entities" then extract_entities env document_content parameters
  else if action = "answer_question" then answer_question env document_content parameters
  else if action = "compare_documents" then compare_documents env document_content parameters
  else if action = "translate" then translate_document env document_content parameters
  else if action = "classify" then classify_document env document_content
  else if action = "extract_insights" then extract_insights env document_content
  else if action = "find_information" then find_information env document_content parameters
  else if action = "analyze_sentiment" then analyze_sentiment env document_content
  else if action = "extract_action_items" then extract_action_items env document_content
  else if action = "ask_clarification" then ask_clarification parameters
  else ActionResult.err ("Unknown action: " ++ action)

/-! ## Orchestrator -/

/-- The response envelope assembled by `process_query`. -/
structure Envelope where
  user_query : String
  intent_analysis : Intent
  action_result : ActionResult
  agent_reasoning : String
  confidence : ℚ

/-- Embedding of `process_query(user_query, document_content, document_id)`: classify, then
dispatch, then assemble the envelope.  The optional write of
`(document_id, document_content)` into `document_memory` does not influence
the returned envelope (no reader of the memory is on this path), so the
embedding returns the envelope directly; its `try/except` degraded-envelope
branch is unreachable because both the classifier and the dispatcher are
total. -/
def process_query (env : Env) (user_query document_content _document_id : String) :
    Envelope :=
  let intent := fallback_intent_analysis user_query
  { user_query := user_query
    intent_analysis := intent
    action_result := execute_action env intent.action document_content intent.parameters
    agent_reasoning := intent.reasoning
    confidence := intent.confidence }

/-- An environment whose model invocation always succeeds with the empty
response and whose JSON parse always fails; used to instantiate theorems at
concrete inputs. -/
def envTrivial : Env :=
  { bedrock := fun _ => Except.ok "", parseEntitiesJson := fun _ => none }

/-- An environment whose model invocation always raises (exception text
`"boom"`). -/
def envBoom : Env :=
  { bedrock := fun _ => Except.error "boom", parseEntitiesJson := fun _ => none }

/-- An environment whose model invocation returns the fixed non-JSON text
`"not json"` and whose JSON parse always fails. -/
def envNotJson : Env :=
  { bedrock := fun _ => Except.ok "not json", parseEntitiesJson := fun _ => none }

end AgentIntelligence

namespace CrewaiAgentSystem
open AgentIntelligence (lowerStr anyKw strContains)

/-- The `simple_keywords` list of `_analyze_query_complexity`. -/
def simple_keywords : List String := ["summarize", "summary", "translate", "classify"]

/-- The `complex_keywords` list of `_analyze_query_complexity`. -/
def complex_keywords : List String := ["analyze", "compare", "insights", "comprehensive", "detailed"]

/-- Embedding of `_analyze_query_complexity(user_query, document_content)` from
`crewai_agent_system.py`. -/
def analyze_query_complexity (user_query document_content : String) : String :=
  let ql := lowerStr user_query
  let doc_length := document_content.length
  if anyKw ql simple_keywords ∧ doc_length < 2000 then "simple"
  else if anyKw ql complex_keywords ∨ doc_length > 5000 then "complex"
  else "moderate"

/-- The complexity rule as the spec words it, amended to include the
`summary` simple keyword that the source also checks: `simple` iff the
lowercased query contains a simple keyword and the document length is below
2000; otherwise `complex` iff it contains a complex keyword or the document
length exceeds 5000; otherwise `moderate`. -/
def complexitySpecAmended (query : String) (document_length : Nat) : String :=
  if anyKw (lowerStr query) ["summarize", "summary", "translate", "classify"]
      ∧ document_length < 2000 then "simple"
  else if anyKw (lowerStr query) ["analyze", "compare", "insights", "comprehensive", "detailed"]
      ∨ document_length > 5000 then "complex"
  else "moderate"

/-- A 500-character document. -/
def doc500 : String := String.mk (List.replicate 500 'a')

/-- A 3000-character document. -/
def doc3000 : String := String.mk (List.replicate 3000 'a')

end CrewaiAgentSystem

/-! ## Helper lemmas -/

namespace AgentIntelligence

lemma anyKw_false_elem {ql s : String} {kws : List String}
    (h : anyKw ql kws = false) (hs : s ∈ kws) : strContains ql s = false := by
  by_contra hc
  rw [Bool.not_eq_false] at hc
  have ht : anyKw ql kws = true := List.any_eq_true.mpr ⟨s, hs, hc⟩
  rw [ht] at h
  exact Bool.noConfusion h

lemma anyKw_sub_false {ql : String} {sub sup : List String}
    (hss : ∀ s ∈ sub, s ∈ sup) (h : anyKw ql sup = false) : anyKw ql sub = false := by
  by_contra hc
  rw [Bool.not_eq_false] at hc
  obtain ⟨s, hs, hcs⟩ := List.any_eq_true.mp hc
  rw [anyKw_false_elem h (hss s hs)] at hcs
  exact Bool.noConfusion hcs

lemma strContains_sub {q a b : String} (hab : a.toList <:+: b.toList)
    (h : strContains q b = true) : strContains q a = true := by
  unfold strContains at h ⊢
  exact decide_eq_true (hab.trans (of_decide_eq_true h))

/-- Under the negations of the first-cascade rules, every guard of the
duplicate older cascade is false. -/
lemma secondCascadeFalse {ql : String}
    (h3 : anyKw ql findingsKws = false)
    (h4 : anyKw ql peopleKws = false)
    (h5 : strContains ql "who" = false)
    (h6 : anyKw ql orgKws = false)
    (h7 : anyKw ql actionItemKws = false)
    (h8 : anyKw ql translateKws = false)
    (h9 : anyKw ql classifyKws = false)
    (h10 : anyKw ql insightKws = false)
    (h11 : anyKw ql sentimentKws = false)
    (h12 : anyKw ql compareKws = false)
    (h13 : anyKw ql summarizeKws = false) :
    anyKw ql actionItemKws2 = false ∧ anyKw ql whoKws2 = false ∧
    anyKw ql translateKws2 = false ∧ anyKw ql classifyKws2 = false ∧
    anyKw ql insightKws2 = false ∧ anyKw ql sentimentKws2 = false ∧
    anyKw ql compareKws2 = false ∧ anyKw ql summarizeKws2 = false := by
  refine ⟨anyKw_sub_false ?_ h7, ?_, anyKw_sub_false ?_ h8, anyKw_sub_false ?_ h9,
    ?_, anyKw_sub_false ?_ h11, anyKw_sub_false ?_ h12, anyKw_sub_false ?_ h13⟩
  · decide
  · have hperson := anyKw_false_elem h4 (show "person" ∈ peopleKws by decide)
    have hpeople := anyKw_false_elem h4 (show "people" ∈ peopleKws by decide)
    have horg := anyKw_false_elem h6 (show "organization" ∈ orgKws by decide)
    have hcomp := anyKw_false_elem h6 (show "company" ∈ orgKws by decide)
    simp [anyKw, whoKws2, h5, hperson, hpeople, horg, hcomp]
  · decide
  · decide
  · have hins := anyKw_false_elem h10 (show "insight" ∈ insightKws by decide)
    have hpat := anyKw_false_elem h10 (show "pattern" ∈ insightKws by decide)
    have htrend := anyKw_false_elem h10 (show "trend" ∈ insightKws by decide)
    have hfind := anyKw_false_elem h3 (show "finding" ∈ findingsKws by decide)
    have hkf : strContains ql "key finding" = false := by
      by_contra hc
      rw [Bool.not_eq_false] at hc
      have := strContains_sub (show ("finding".toList <:+: "key finding".toList) by decide) hc
      rw [hfind] at this
      exact Bool.noConfusion this
    simp [anyKw, insightKws2, hins, hpat, htrend, hkf]
  · decide
  · decide
  · decide

lemma fallbackCore_action_mem (ql q : String) :
    (fallbackCore ql q).action ∈ knownActions := by
  unfold fallbackCore
  by_cases g1 : anyKw ql conclusionKws = true
  · rw [if_pos g1]; decide
  rw [if_neg g1]
  by_cases g2 : anyKw ql authorKws = true
  · rw [if_pos g2]; decide
  rw [if_neg g2]
  by_cases g3 : anyKw ql findingsKws = true
  · rw [if_pos g3]; exact (by decide : "answer_question" ∈ knownActions)
  rw [if_neg g3]
  by_cases g4 : (anyKw ql peopleKws && !strContains ql "author") = true
  · rw [if_pos g4]; decide
  rw [if_neg g4]
  by_cases g5 : (strContains ql "who" && !strContains ql "author") = true
  · rw [if_pos g5]; decide
  rw [if_neg g5]
  by_cases g6 : anyKw ql orgKws = true
  · rw [if_pos g6]; decide
  rw [if_neg g6]
  by_cases g7 : anyKw ql actionItemKws = true
  · rw [if_pos g7]; decide
  rw [if_neg g7]
  by_cases g8 : anyKw ql translateKws = true
  · rw [if_pos g8]; exact (by decide : "translate" ∈ knownActions)
  rw [if_neg g8]
  by_cases g9 : anyKw ql classifyKws = true
  · rw [if_pos g9]; decide
  rw [if_neg g9]
  by_cases g10 : anyKw ql insightKws = true
  · rw [if_pos g10]; decide
  rw [if_neg g10]
  by_cases g11 : anyKw ql sentimentKws = true
  · rw [if_pos g11]; decide
  rw [if_neg g11]
  by_cases g12 : anyKw ql compareKws = true
  · rw [if_pos g12]; decide
  rw [if_neg g12]
  by_cases g13 : anyKw ql summarizeKws = true
  · rw [if_pos g13]; decide
  rw [if_neg g13]
  by_cases g14 : anyKw ql questionKws = true
  · rw [if_pos g14]; exact (by decide : "answer_question" ∈ knownActions)
  rw [if_neg g14]
  by_cases g15 : anyKw ql actionItemKws2 = true
  · rw [if_pos g15]; decide
  rw [if_neg g15]
  by_cases g16 : anyKw ql whoKws2 = true
  · rw [if_pos g16]; decide
  rw [if_neg g16]
  by_cases g17 : anyKw ql translateKws2 = true
  · rw [if_pos g17]; exact (by decide : "translate" ∈ knownActions)
  rw [if_neg g17]
  by_cases g18 : anyKw ql classifyKws2 = true
  · rw [if_pos g18]; decide
  rw [if_neg g18]
  by_cases g19 : anyKw ql insightKws2 = true
  · rw [if_pos g19]; decide
  rw [if_neg g19]
  by_cases g20 : anyKw ql sentimentKws2 = true
  · rw [if_pos g20]; decide
  rw [if_neg g20]
  by_cases g21 : anyKw ql compareKws2 = true
  · rw [if_pos g21]; decide
  rw [if_neg g21]
  by_cases g22 : anyKw ql summarizeKws2 = true
  · rw [if_pos g22]; decide
  rw [if_neg g22]
  decide

lemma fallbackCore_confidence_pos (ql q : String) :
    0 < (fallbackCore ql q).confidence := by
  unfold fallbackCore
  by_cases g1 : anyKw ql conclusionKws = true
  · rw [if_pos g1]; norm_num [conclusionIntent]
  rw [if_neg g1]
  by_cases g2 : anyKw ql authorKws = true
  · rw [if_pos g2]; norm_num [authorIntent]
  rw [if_neg g2]
  by_cases g3 : anyKw ql findingsKws = true
  · rw [if_pos g3]; norm_num [findingsIntent]
  rw [if_neg g3]
  by_cases g4 : (anyKw ql peopleKws && !strContains ql "author") = true
  · rw [if_pos g4]; norm_num [peopleEntitiesIntent]
  rw [if_neg g4]
  by_cases g5 : (strContains ql "who" && !strContains ql "author") = true
  · rw [if_pos g5]; norm_num [peopleEntitiesIntent]
  rw [if_neg g5]
  by_cases g6 : anyKw ql orgKws = true
  · rw [if_pos g6]; norm_num [orgEntitiesIntent]
  rw [if_neg g6]
  by_cases g7 : anyKw ql actionItemKws = true
  · rw [if_pos g7]; norm_num [actionItemsIntent]
  rw [if_neg g7]
  by_cases g8 : anyKw ql translateKws = true
  · rw [if_pos g8]; norm_num [translateIntent]
  rw [if_neg g8]
  by_cases g9 : anyKw ql classifyKws = true
  · rw [if_pos g9]; norm_num [classifyIntent]
  rw [if_neg g9]
  by_cases g10 : anyKw ql insightKws = true
  · rw [if_pos g10]; norm_num [insightsIntent]
  rw [if_neg g10]
  by_cases g11 : anyKw ql sentimentKws = true
  · rw [if_pos g11]; norm_num [sentimentIntent]
  rw [if_neg g11]
  by_cases g12 : anyKw ql compareKws = true
  · rw [if_pos g12]; norm_num [compareIntent]
  rw [if_neg g12]
  by_cases g13 : anyKw ql summarizeKws = true
  · rw [if_pos g13]; norm_num [summarizeIntent]
  rw [if_neg g13]
  by_cases g14 : anyKw ql questionKws = true
  · rw [if_pos g14]; norm_num [questionIntent]
  rw [if_neg g14]
  by_cases g15 : anyKw ql actionItemKws2 = true
  · rw [if_pos g15]; norm_num [actionItemsIntent]
  rw [if_neg g15]
  by_cases g16 : anyKw ql whoKws2 = true
  · rw [if_pos g16]; norm_num [whoEntitiesIntent]
  rw [if_neg g16]
  by_cases g17 : anyKw ql translateKws2 = true
  · rw [if_pos g17]; norm_num [translateIntent]
  rw [if_neg g17]
  by_cases g18 : anyKw ql classifyKws2 = true
  · rw [if_pos g18]; norm_num [classifyIntent]
  rw [if_neg g18]
  by_cases g19 : anyKw ql insightKws2 = true
  · rw [if_pos g19]; norm_num [insightsIntent]
  rw [if_neg g19]
  by_cases g20 : anyKw ql sentimentKws2 = true
  · rw [if_pos g20]; norm_num [sentimentIntent]
  rw [if_neg g20]
  by_cases g21 : anyKw ql compareKws2 = true
  · rw [if_pos g21]; norm_num [compareIntent]
  rw [if_neg g21]
  by_cases g22 : anyKw ql summarizeKws2 = true
  · rw [if_pos g22]; norm_num [summarizeIntent]
  rw [if_neg g22]
  norm_num [clarificationIntent]

end AgentIntelligence

/-! ## Core lemmas about the rule cascade -/

namespace AgentIntelligence

/-- The original-query argument only affects the `parameters` component. -/
lemma fallbackCore_shape (ql q1 q2 : String) :
    intentShape (fallbackCore ql q1) = intentShape (fallbackCore ql q2) := by
  unfold fallbackCore
  by_cases g1 : anyKw ql conclusionKws = true
  · rw [if_pos g1, if_pos g1]
  rw [if_neg g1, if_neg g1]
  by_cases g2 : anyKw ql authorKws = true
  · rw [if_pos g2, if_pos g2]
  rw [if_neg g2, if_neg g2]
  by_cases g3 : anyKw ql findingsKws = true
  · rw [if_pos g3, if_pos g3]; rfl
  rw [if_neg g3, if_neg g3]
  by_cases g4 : (anyKw ql peopleKws && !strContains ql "author") = true
  · rw [if_pos g4, if_pos g4]
  rw [if_neg g4, if_neg g4]
  by_cases g5 : (strContains ql "who" && !strContains ql "author") = true
  · rw [if_pos g5, if_pos g5]
  rw [if_neg g5, if_neg g5]
  by_cases g6 : anyKw ql orgKws = true
  · rw [if_pos g6, if_pos g6]
  rw [if_neg g6, if_neg g6]
  by_cases g7 : anyKw ql actionItemKws = true
  · rw [if_pos g7, if_pos g7]
  rw [if_neg g7, if_neg g7]
  by_cases g8 : anyKw ql translateKws = true
  · rw [if_pos g8, if_pos g8]
  rw [if_neg g8, if_neg g8]
  by_cases g9 : anyKw ql classifyKws = true
  · rw [if_pos g9, if_pos g9]
  rw [if_neg g9, if_neg g9]
  by_cases g10 : anyKw ql insightKws = true
  · rw [if_pos g10, if_pos g10]
  rw [if_neg g10, if_neg g10]
  by_cases g11 : anyKw ql sentimentKws = true
  · rw [if_pos g11, if_pos g11]
  rw [if_neg g11, if_neg g11]
  by_cases g12 : anyKw ql compareKws = true
  · rw [if_pos g12, if_pos g12]
  rw [if_neg g12, if_neg g12]
  by_cases g13 : anyKw ql summarizeKws = true
  · rw [if_pos g13, if_pos g13]
  rw [if_neg g13, if_neg g13]
  by_cases g14 : anyKw ql questionKws = true
  · rw [if_pos g14, if_pos g14]; rfl
  rw [if_neg g14, if_neg g14]

/-- With every first-cascade rule refuted, the guards of the duplicate older
cascade are refuted too, so the full cascade agrees with the trimmed one. -/
lemma fallbackCore_eq_trimmedCore (ql q : String) :
    fallbackCore ql q = fallbackTrimmedCore ql q := by
  unfold fallbackCore fallbackTrimmedCore
  by_cases g1 : anyKw ql conclusionKws = true
  · rw [if_pos g1, if_pos g1]
  rw [if_neg g1, if_neg g1]
  by_cases g2 : anyKw ql authorKws = true
  · rw [if_pos g2, if_pos g2]
  rw [if_neg g2, if_neg g2]
  by_cases g3 : anyKw ql findingsKws = true
  · rw [if_pos g3, if_pos g3]
  rw [if_neg g3, if_neg g3]
  by_cases g4 : (anyKw ql peopleKws && !strContains ql "author") = true
  · rw [if_pos g4, if_pos g4]
  rw [if_neg g4, if_neg g4]
  by_cases g5 : (strContains ql "who" && !strContains ql "author") = true
  · rw [if_pos g5, if_pos g5]
  rw [if_neg g5, if_neg g5]
  by_cases g6 : anyKw ql orgKws = true
  · rw [if_pos g6, if_pos g6]
  rw [if_neg g6, if_neg g6]
  by_cases g7 : anyKw ql actionItemKws = true
  · rw [if_pos g7, if_pos g7]
  rw [if_neg g7, if_neg g7]
  by_cases g8 : anyKw ql translateKws = true
  · rw [if_pos g8, if_pos g8]
  rw [if_neg g8, if_neg g8]
  by_cases g9 : anyKw ql classifyKws = true
  · rw [if_pos g9, if_pos g9]
  rw [if_neg g9, if_neg g9]
  by_cases g10 : anyKw ql insightKws = true
  · rw [if_pos g10, if_pos g10]
  rw [if_neg g10, if_neg g10]
  by_cases g11 : anyKw ql sentimentKws = true
  · rw [if_pos g11, if_pos g11]
  rw [if_neg g11, if_neg g11]
  by_cases g12 : anyKw ql compareKws = true
  · rw [if_pos g12, if_pos g12]
  rw [if_neg g12, if_neg g12]
  by_cases g13 : anyKw ql summarizeKws = true
  · rw [if_pos g13, if_pos g13]
  rw [if_neg g13, if_neg g13]
  by_cases g14 : anyKw ql questionKws = true
  · rw [if_pos g14, if_pos g14]
  rw [if_neg g14, if_neg g14]
  rw [Bool.not_eq_true] at g2 g3 g4 g5 g6 g7 g8 g9 g10 g11 g12 g13
  have hauthor : strContains ql "author" = false := anyKw_false_elem g2 (by decide)
  rw [hauthor] at g4 g5
  simp only [Bool.not_false, Bool.and_true] at g4 g5
  obtain ⟨s15, s16, s17, s18, s19, s20, s21, s22⟩ :=
    secondCascadeFalse g3 g4 g5 g6 g7 g8 g9 g10 g11 g12 g13
  rw [if_neg (by simp [s15] : ¬(anyKw ql actionItemKws2 = true)),
      if_neg (by simp [s16] : ¬(anyKw ql whoKws2 = true)),
      if_neg (by simp [s17] : ¬(anyKw ql translateKws2 = true)),
      if_neg (by simp [s18] : ¬(anyKw ql classifyKws2 = true)),
      if_neg (by simp [s19] : ¬(anyKw ql insightKws2 = true)),
      if_neg (by simp [s20] : ¬(anyKw ql sentimentKws2 = true)),
      if_neg (by simp [s21] : ¬(anyKw ql compareKws2 = true)),
      if_neg (by simp [s22] : ¬(anyKw ql summarizeKws2 = true))]

end AgentIntelligence

/-! ## Claim theorems -/

namespace AgentIntelligence

/-- C1: a query whose lowercased text contains an author-related term and no
conclusion-related term is classified as `answer_question` with the
synthesized question "Who is the author of this document?" and confidence
0.9 — in particular never as `extract_entities`, even if it also contains
"who" or a people term. -/
theorem author_rule_answer_question (q : String)
    (hauthor : anyKw (lowerStr q) authorKws = true)
    (hconc : anyKw (lowerStr q) conclusionKws = false) :
    fallback_intent_analysis q =
      { action := "answer_question", confidence := 0.9,
        reasoning := "User asking about the author of the document",
        parameters := Params.question "Who is the author of this document?",
        requires_multiple_docs := false } := by
  unfold fallback_intent_analysis fallbackCore
  rw [if_neg (by simp [hconc] : ¬(anyKw (lowerStr q) conclusionKws = true)),
      if_pos hauthor]
  rfl

theorem author_rule_answer_question_witness :
    anyKw (lowerStr "Who is the author of this report?") authorKws = true ∧
    anyKw (lowerStr "Who is the author of this report?") conclusionKws = false ∧
    fallback_intent_analysis "Who is the author of this report?" =
      { action := "answer_question", confidence := 0.9,
        reasoning := "User asking about the author of the document",
        parameters := Params.question "Who is the author of this document?",
        requires_multiple_docs := false } :=
  ⟨by decide, by decide,
   author_rule_answer_question "Who is the author of this report?" (by decide) (by decide)⟩

/-- C2 counterexample: with a model invocation that raises (exception text
"boom"), dispatching `summarize` does NOT return the dispatcher error shape
`error: "Error executing action ..."`; it returns the normal success-shaped
summarize result whose text is the string `"Error calling Bedrock: boom"`
produced inside `_call_bedrock`. -/
theorem model_error_not_dispatch_error_cex :
    (execute_action envBoom "summarize" "doc" Params.empty).isErr = false ∧
    execute_action envBoom "summarize" "doc" Params.empty
      = ActionResult.summarizeRes "Error calling Bedrock: boom" 3 27 :=
  ⟨rfl, rfl⟩

/-- C2 (amended): a model-invocation exception never surfaces as a dispatcher
error result: for every registered action the dispatch result is
success-shaped whatever the environment does, and under a raising model call
the summarize handler returns its normal result shape embedding the absorbed
error text `"Error calling Bedrock: <e>"` as the model response. -/
theorem model_error_absorbed (env : Env) (action doc e : String) (params : Params)
    (pj : String → Option ParsedEntities) (h : action ∈ knownActions) :
    (execute_action env action doc params).isErr = false ∧
    execute_action { bedrock := fun _ => Except.error e, parseEntitiesJson := pj }
        "summarize" doc params
      = ActionResult.summarizeRes ("Error calling Bedrock: " ++ e) doc.length
          ("Error calling Bedrock: " ++ e).length := by
  refine ⟨?_, rfl⟩
  simp only [knownActions, List.mem_cons, List.not_mem_nil, or_false] at h
  rcases h with rfl | rfl | rfl | rfl | rfl | rfl | rfl | rfl | rfl | rfl | rfl <;> rfl

theorem model_error_absorbed_witness :
    "summarize" ∈ knownActions ∧
    ((execute_action envBoom "summarize" "doc" Params.empty).isErr = false ∧
     execute_action envBoom "summarize" "doc" Params.empty
       = ActionResult.summarizeRes ("Error calling Bedrock: " ++ "boom") ("doc").length
           ("Error calling Bedrock: " ++ "boom").length) :=
  ⟨by decide,
   model_error_absorbed envBoom "summarize" "doc" "boom" Params.empty (fun _ => none)
     (by decide)⟩

/-- C4: dispatching an action outside the registry returns exactly
`error: "Unknown action: <action>"` (and, the dispatcher being a total
function, never raises). -/
theorem unknown_action_error (env : Env) (action doc : String) (params : Params)
    (h : action ∉ knownActions) :
    execute_action env action doc params
      = ActionResult.err ("Unknown action: " ++ action) := by
  simp only [knownActions, List.mem_cons, List.not_mem_nil, or_false, not_or] at h
  obtain ⟨n1, n2, n3, n4, n5, n6, n7, n8, n9, n10, n11⟩ := h
  unfold execute_action
  rw [if_neg n1, if_neg n2, if_neg n3, if_neg n4, if_neg n5, if_neg n6, if_neg n7,
      if_neg n8, if_neg n9, if_neg n10, if_neg n11]

theorem unknown_action_error_witness :
    "frobnicate" ∉ knownActions ∧
    execute_action envTrivial "frobnicate" "doc" Params.empty
      = ActionResult.err ("Unknown action: " ++ "frobnicate") :=
  ⟨by decide, unknown_action_error envTrivial "frobnicate" "doc" Params.empty (by decide)⟩

/-- C5: `process_query` always returns the well-formed envelope — the query
is echoed back, the intent is the classifier output, reasoning and
confidence are copied from the intent, the action is a registered one (so
never the degraded `"error"` marker), the confidence is never the degraded
0.0, and the action result is the dispatch of the intent.  Totality of this
function is the embedding of "never raises". -/
theorem process_query_envelope (env : Env) (q doc did : String) :
    (process_query env q doc did).user_query = q ∧
    (process_query env q doc did).intent_analysis = fallback_intent_analysis q ∧
    (process_query env q doc did).agent_reasoning
      = (fallback_intent_analysis q).reasoning ∧
    (process_query env q doc did).confidence
      = (fallback_intent_analysis q).confidence ∧
    (process_query env q doc did).intent_analysis.action ∈ knownActions ∧
    (process_query env q doc did).intent_analysis.action ≠ "error" ∧
    (process_query env q doc did).confidence ≠ 0 ∧
    (process_query env q doc did).action_result
      = execute_action env (fallback_intent_analysis q).action doc
          (fallback_intent_analysis q).parameters := by
  refine ⟨rfl, rfl, rfl, rfl, fallbackCore_action_mem (lowerStr q) q, ?_, ?_, rfl⟩
  · intro h
    have hm : (process_query env q doc did).intent_analysis.action ∈ knownActions :=
      fallbackCore_action_mem (lowerStr q) q
    rw [h] at hm
    exact absurd hm (by decide)
  · have hc : (0:ℚ) < (process_query env q doc did).confidence :=
      fallbackCore_confidence_pos (lowerStr q) q
    exact hc.ne'

/-- C6: a query matching none of the keyword rules is classified as
`ask_clarification` with confidence 0.3 and the fixed non-empty suggestion
list; moreover (totality of the classifier) every query yields an intent
whose action is a registered one. -/
theorem no_match_ask_clarification (q : String)
    (h1 : anyKw (lowerStr q) conclusionKws = false)
    (h2 : anyKw (lowerStr q) authorKws = false)
    (h3 : anyKw (lowerStr q) findingsKws = false)
    (h4 : anyKw (lowerStr q) peopleKws = false)
    (h5 : strContains (lowerStr q) "who" = false)
    (h6 : anyKw (lowerStr q) orgKws = false)
    (h7 : anyKw (lowerStr q) actionItemKws = false)
    (h8 : anyKw (lowerStr q) translateKws = false)
    (h9 : anyKw (lowerStr q) classifyKws = false)
    (h10 : anyKw (lowerStr q) insightKws = false)
    (h11 : anyKw (lowerStr q) sentimentKws = false)
    (h12 : anyKw (lowerStr q) compareKws = false)
    (h13 : anyKw (lowerStr q) summarizeKws = false)
    (h14 : anyKw (lowerStr q) questionKws = false) :
    fallback_intent_analysis q =
      { action := "ask_clarification", confidence := 0.3,
        reasoning := "User query unclear - need clarification on what they want",
        parameters := Params.suggestions clarificationSuggestions,
        requires_multiple_docs := false } ∧
    clarificationSuggestions ≠ [] ∧
    ∀ q' : String, (fallback_intent_analysis q').action ∈ knownActions := by
  refine ⟨?_, by decide, fun q' => fallbackCore_action_mem (lowerStr q') q'⟩
  obtain ⟨s15, s16, s17, s18, s19, s20, s21, s22⟩ :=
    secondCascadeFalse h3 h4 h5 h6 h7 h8 h9 h10 h11 h12 h13
  unfold fallback_intent_analysis fallbackCore
  rw [if_neg (by simp [h1] : ¬(anyKw (lowerStr q) conclusionKws = true)),
      if_neg (by simp [h2] : ¬(anyKw (lowerStr q) authorKws = true)),
      if_neg (by simp [h3] : ¬(anyKw (lowerStr q) findingsKws = true)),
      if_neg (by simp [h4] :
        ¬((anyKw (lowerStr q) peopleKws && !strContains (lowerStr q) "author") = true)),
      if_neg (by simp [h5] :
        ¬((strContains (lowerStr q) "who" && !strContains (lowerStr q) "author") = true)),
      if_neg (by simp [h6] : ¬(anyKw (lowerStr q) orgKws = true)),
      if_neg (by simp [h7] : ¬(anyKw (lowerStr q) actionItemKws = true)),
      if_neg (by simp [h8] : ¬(anyKw (lowerStr q) translateKws = true)),
      if_neg (by simp [h9] : ¬(anyKw (lowerStr q) classifyKws = true)),
      if_neg (by simp [h10] : ¬(anyKw (lowerStr q) insightKws = true)),
      if_neg (by simp [h11] : ¬(anyKw (lowerStr q) sentimentKws = true)),
      if_neg (by simp [h12] : ¬(anyKw (lowerStr q) compareKws = true)),
      if_neg (by simp [h13] : ¬(anyKw (lowerStr q) summarizeKws = true)),
      if_neg (by simp [h14] : ¬(anyKw (lowerStr q) questionKws = true)),
      if_neg (by simp [s15] : ¬(anyKw (lowerStr q) actionItemKws2 = true)),
      if_neg (by simp [s16] : ¬(anyKw (lowerStr q) whoKws2 = true)),
      if_neg (by simp [s17] : ¬(anyKw (lowerStr q) translateKws2 = true)),
      if_neg (by simp [s18] : ¬(anyKw (lowerStr q) classifyKws2 = true)),
      if_neg (by simp [s19] : ¬(anyKw (lowerStr q) insightKws2 = true)),
      if_neg (by simp [s20] : ¬(anyKw (lowerStr q) sentimentKws2 = true)),
      if_neg (by simp [s21] : ¬(anyKw (lowerStr q) compareKws2 = true)),
      if_neg (by simp [s22] : ¬(anyKw (lowerStr q) summarizeKws2 = true))]
  rfl

theorem no_match_ask_clarification_witness :
    anyKw (lowerStr "asdkjfh random text") conclusionKws = false ∧
    anyKw (lowerStr "asdkjfh random text") questionKws = false ∧
    ((fallback_intent_analysis "asdkjfh random text").action = "ask_clarification" ∧
     (fallback_intent_analysis "asdkjfh random text").confidence = 0.3) := by
  refine ⟨by decide, by decide, ?_⟩
  have h := no_match_ask_clarification "asdkjfh random text"
    (by decide) (by decide) (by decide) (by decide) (by decide) (by decide) (by decide)
    (by decide) (by decide) (by decide) (by decide) (by decide) (by decide) (by decide)
  rw [h.1]
  exact ⟨rfl, rfl⟩

/-- C7: a query containing a translation term and matching no earlier rule is
classified as `translate` with confidence 0.9 and a `target_language`
parameter resolved by substring check — French, German, Chinese or Japanese
when the respective name occurs, otherwise the Spanish default. -/
theorem translate_rule (q : String)
    (h1 : anyKw (lowerStr q) conclusionKws = false)
    (h2 : anyKw (lowerStr q) authorKws = false)
    (h3 : anyKw (lowerStr q) findingsKws = false)
    (h4 : anyKw (lowerStr q) peopleKws = false)
    (h5 : strContains (lowerStr q) "who" = false)
    (h6 : anyKw (lowerStr q) orgKws = false)
    (h7 : anyKw (lowerStr q) actionItemKws = false)
    (h8 : anyKw (lowerStr q) translateKws = true) :
    fallback_intent_analysis q =
      { action := "translate", confidence := 0.9,
        reasoning := "User requested translation to " ++ resolveTargetLang (lowerStr q),
        parameters := Params.targetLanguage (resolveTargetLang (lowerStr q)),
        requires_multiple_docs := false } := by
  unfold fallback_intent_analysis fallbackCore
  rw [if_neg (by simp [h1] : ¬(anyKw (lowerStr q) conclusionKws = true)),
      if_neg (by simp [h2] : ¬(anyKw (lowerStr q) authorKws = true)),
      if_neg (by simp [h3] : ¬(anyKw (lowerStr q) findingsKws = true)),
      if_neg (by simp [h4] :
        ¬((anyKw (lowerStr q) peopleKws && !strContains (lowerStr q) "author") = true)),
      if_neg (by simp [h5] :
        ¬((strContains (lowerStr q) "who" && !strContains (lowerStr q) "author") = true)),
      if_neg (by simp [h6] : ¬(anyKw (lowerStr q) orgKws = true)),
      if_neg (by simp [h7] : ¬(anyKw (lowerStr q) actionItemKws = true)),
      if_pos h8]
  rfl

theorem translate_rule_witness :
    anyKw (lowerStr "Translate to French") translateKws = true ∧
    fallback_intent_analysis "Translate to French" =
      { action := "translate", confidence := 0.9,
        reasoning := "User requested translation to French",
        parameters := Params.targetLanguage "French",
        requires_multiple_docs := false } := by
  refine ⟨by decide, ?_⟩
  have hres : resolveTargetLang (lowerStr "Translate to French") = "French" := by decide
  rw [translate_rule "Translate to French" (by decide) (by decide) (by decide) (by decide)
        (by decide) (by decide) (by decide) (by decide), hres]
  rfl

/-- C8: when the model response of the entity-extraction handler fails to
parse as structured data, the handler still returns its success-shaped
`extract_entities` result whose `entities` field is the fallback
`raw_response`/`error` dict — no action-level failure. -/
theorem entities_parse_fallback (env : Env) (content response : String) (params : Params)
    (hb : env.bedrock (entitiesPrompt (getEntityTypes params) content)
            = Except.ok response)
    (hp : env.parseEntitiesJson response = none) :
    extract_entities env content params
      = ActionResult.entitiesRes (Entities.fallback response "JSON parsing failed")
          (getEntityTypes params) ∧
    (extract_entities env content params).isErr = false := by
  have hmain : extract_entities env content params
      = ActionResult.entitiesRes (Entities.fallback response "JSON parsing failed")
          (getEntityTypes params) := by
    simp only [extract_entities, call_bedrock, hb, hp]
  exact ⟨hmain, by rw [hmain]; rfl⟩

theorem entities_parse_fallback_witness :
    envNotJson.parseEntitiesJson "not json" = none ∧
    (extract_entities envNotJson "doc" Params.empty
       = ActionResult.entitiesRes (Entities.fallback "not json" "JSON parsing failed")
           ["PERSON", "ORGANIZATION", "DATE", "LOCATION"] ∧
     (extract_entities envNotJson "doc" Params.empty).isErr = false) :=
  ⟨rfl, entities_parse_fallback envNotJson "doc" "not json" Params.empty rfl rfl⟩

/-- C9 counterexample: the result of the classifier does NOT depend only on the
lowercased query text — two queries with the same lowercasing can produce
different Intents, because the findings and generic-question rules embed the
original query verbatim in the `question` parameter. -/
theorem classifier_lowercase_cex :
    lowerStr "FINDING" = lowerStr "finding" ∧
    fallback_intent_analysis "FINDING" ≠ fallback_intent_analysis "finding" := by
  refine ⟨by decide, fun h => ?_⟩
  exact absurd (congrArg Intent.parameters h) (by decide)

/-- C9 (amended): the classifier is a pure function (hence deterministic and
idempotent), and every Intent component except `parameters` — action,
confidence, reasoning, requires_multiple_docs — depends only on the
lowercased query text. -/
theorem classifier_shape_lowercase (q1 q2 : String)
    (h : lowerStr q1 = lowerStr q2) :
    intentShape (fallback_intent_analysis q1)
      = intentShape (fallback_intent_analysis q2) := by
  unfold fallback_intent_analysis
  rw [h]
  exact fallbackCore_shape (lowerStr q2) q1 q2

theorem classifier_shape_lowercase_witness :
    lowerStr "FINDING" = lowerStr "finding" ∧
    intentShape (fallback_intent_analysis "FINDING")
      = intentShape (fallback_intent_analysis "finding") :=
  ⟨by decide, classifier_shape_lowercase "FINDING" "finding" (by decide)⟩

/-- C10: the duplicate older `elif` cascade after the generic-interrogative
rule is unreachable — deleting it yields an extensionally equal classifier. -/
theorem second_cascade_unreachable (q : String) :
    fallback_intent_analysis q = fallback_intent_trimmed q :=
  fallbackCore_eq_trimmedCore (lowerStr q) q

end AgentIntelligence

namespace CrewaiAgentSystem
open AgentIntelligence (lowerStr anyKw strContains)

/-- C3 counterexample: the complexity estimate is `simple` for a query
containing none of the simple keywords named by the claim (summarize/translate/classify)
— the source also treats `summary` as a simple keyword, so the claimed
iff fails on the query "a summary please" with a short document. -/
theorem summary_keyword_cex :
    analyze_query_complexity "a summary please" "doc" = "simple" ∧
    strContains (lowerStr "a summary please") "summarize" = false ∧
    strContains (lowerStr "a summary please") "translate" = false ∧
    strContains (lowerStr "a summary please") "classify" = false ∧
    ("doc" : String).length < 2000 :=
  ⟨by decide, by decide, by decide, by decide, by decide⟩

/-- C3 (amended): with `summary` added to the simple keywords, the estimator
implements exactly the claimed three-tier rule, and the three cited examples
hold: summarize/500 → simple, comprehensive/500 → complex,
explain/3000 → moderate. -/
theorem complexity_matches_amended_spec (query content : String) :
    analyze_query_complexity query content
      = complexitySpecAmended query content.length ∧
    analyze_query_complexity "summarize this" doc500 = "simple" ∧
    analyze_query_complexity "give a comprehensive analysis" doc500 = "complex" ∧
    analyze_query_complexity "explain this" doc3000 = "moderate" := by
  have h500 : doc500.length = 500 := List.length_replicate 500 'a'
  have h3000 : doc3000.length = 3000 := List.length_replicate 3000 'a'
  have hgen : ∀ (qq cc : String),
      analyze_query_complexity qq cc = complexitySpecAmended qq cc.length :=
    fun _ _ => rfl
  refine ⟨hgen query content, ?_, ?_, ?_⟩
  · rw [hgen, h500]
    decide
  · rw [hgen, h500]
    decide
  · rw [hgen, h3000]
    decide

end CrewaiAgentSystem

